import Mathlib

/-!
Verification of the BlenderGIS core against its specification.

The development shallowly embeds the two source files:

* `src/geoscene.py` — the `GeoScene` georeference state (scene ID
  properties `latitude`, `longitude`, `SRID`, `crs x`, `crs y`), its
  predicates (`hasCRS`, `hasValidCRS`, `hasOriginGeo`, `hasOriginPrj`,
  `isBroken`), its setters (`lat`, `lon`, `setOriginGeo`, `setOriginPrj`,
  the `crs` setter) and the `GEOSCENE_SET_CRS` operator.
* `src/osm/op_import_osm.py` — the OSM import pipeline: feature
  classification in `OSM_IMPORT.build.seed`, bmesh geometry construction,
  grouped-mode merging and vertex-group bookkeeping, the node loop's
  way-membership exclusion, and the extent guard of `OSM_QUERY.execute`.

External collaborators (`utils/proj.py`'s `SRS`/`reprojPt`/`Reproj`,
Blender's `bmesh`, the Overpass client) are taken as parameters; an
`Option` result with `none` models a raised exception.  Coordinates are
modelled as rationals; scene ID properties as `Option` fields where
`none` means the key is absent from the scene.
-/

namespace BlenderGIS

/-! ### Georeference state (src/geoscene.py, class GeoScene) -/

/-- The per-scene georef record: one field per scene key of class `SK`
(`latitude`, `longitude`, `crs x`, `crs y`, `SRID`).  `none` models an
absent key. `scale` and `zoom` play no role in the claims and are
omitted. -/
structure Scn where
  lat : Option ℚ
  lon : Option ℚ
  crsx : Option ℚ
  crsy : Option ℚ
  crs : Option String
  deriving DecidableEq

/-- Errors raised by the GeoScene setters: the `ValueError`s of the
`lat`/`lon` setters, the `SRS` parse error, a `reprojPt` failure, and the
"current CRS is invalid" exception of the `crs` setter. -/
inductive GeoErr
  | latRange
  | lonRange
  | invalidCRS
  | reprojFailure
  | crsUpdateBlocked
  deriving DecidableEq

/-- A CRS argument as passed to `reprojPt`: the integer literal `4326`, a
CRS string, or Python `None` (an unset `self.crs`). -/
inductive CRSArg
  | code (n : ℤ)
  | text (t : String)
  | unset
  deriving DecidableEq

/-- How `self.crs` (a string or `None`) is passed to `reprojPt`. -/
def crsArg : Option String → CRSArg
  | none => CRSArg.unset
  | some t => CRSArg.text t

/-- The external `reprojPt` of `utils/proj.py`; `none` models a raised
exception. -/
abbrev Reprj := CRSArg → CRSArg → ℚ → ℚ → Option (ℚ × ℚ)

/-- `GeoScene.hasCRS`: `SK.CRS in self.scn`. -/
def hasCRS (s : Scn) : Bool := s.crs.isSome

/-- `GeoScene.hasValidCRS`: false without a CRS, else `SRS.validate` on
the stored string.  `validate` is the external `SRS.validate`. -/
def hasValidCRS (validate : String → Bool) (s : Scn) : Bool :=
  match s.crs with
  | none => false
  | some c => validate c

/-- `GeoScene.hasOriginGeo`: `SK.LAT in self.scn and SK.LON in self.scn`. -/
def hasOriginGeo (s : Scn) : Bool := s.lat.isSome && s.lon.isSome

/-- `GeoScene.hasOriginPrj`: `SK.CRSX in self.scn and SK.CRSY in self.scn`. -/
def hasOriginPrj (s : Scn) : Bool := s.crsx.isSome && s.crsy.isSome

/-- `GeoScene.isGeoref`: valid CRS plus projected origin. -/
def isGeoref (validate : String → Bool) (s : Scn) : Bool :=
  hasValidCRS validate s && hasOriginPrj s

/-- `GeoScene.isBroken` (geoscene.py lines 93-98), literally:
`(hasCRS and not hasValidCRS) or (not hasCRS and (hasOriginPrj or
hasOriginGeo)) or (hasCRS and hasOriginGeo and not hasOriginPrj)`. -/
def isBroken (validate : String → Bool) (s : Scn) : Bool :=
  (hasCRS s && !hasValidCRS validate s) ||
  (!hasCRS s && (hasOriginPrj s || hasOriginGeo s)) ||
  (hasCRS s && hasOriginGeo s && !hasOriginPrj s)

/-- The `lat` property setter: range-check `-90 <= v <= 90`, store on
success, raise `ValueError` otherwise (the `_RNA_UI` bookkeeping has no
observable effect on the modelled state). -/
def setLat (s : Scn) (v : ℚ) : Scn × Option GeoErr :=
  if -90 ≤ v ∧ v ≤ 90 then ({ s with lat := some v }, none)
  else (s, some GeoErr.latRange)

/-- The `lon` property setter: range-check `-180 <= v <= 180`. -/
def setLon (s : Scn) (v : ℚ) : Scn × Option GeoErr :=
  if -180 ≤ v ∧ v ≤ 180 then ({ s with lon := some v }, none)
  else (s, some GeoErr.lonRange)

/-- `GeoScene.delOriginGeo`: delete the `lat` and `lon` keys (each
deleter removes the key only if present; net effect sets both absent). -/
def delOriginGeo (s : Scn) : Scn := { s with lat := none, lon := none }

/-- `GeoScene.delOriginPrj`: delete the `crs x` and `crs y` keys. -/
def delOriginPrj (s : Scn) : Scn := { s with crsx := none, crsy := none }

/-- `GeoScene.setOriginGeo(lon, lat)` (geoscene.py lines 108-114).
`self.lon, self.lat = lon, lat` assigns through the checked property
setters left to right, outside the `try`; then
`reprojPt(4326, self.crs, lon, lat)` is attempted and, on any exception,
`delOriginPrj` runs instead (a printed warning, nothing re-raised). -/
def setOriginGeo (reproj : Reprj) (s : Scn) (lon lat : ℚ) : Scn × Option GeoErr :=
  match setLon s lon with
  | (s1, some e) => (s1, some e)
  | (s1, none) =>
    match setLat s1 lat with
    | (s2, some e) => (s2, some e)
    | (s2, none) =>
      match reproj (CRSArg.code 4326) (crsArg s2.crs) lon lat with
      | some (x, y) => ({ s2 with crsx := some x, crsy := some y }, none)
      | none => (delOriginPrj s2, none)

/-- `GeoScene.setOriginPrj(x, y)` (geoscene.py lines 116-122).  The
`crsx`/`crsy` setters only check `isinstance(v, (int, float))`, which a
rational always satisfies.  The whole statement
`self.lon, self.lat = reprojPt(self.crs, 4326, x, y)` sits inside the
`try`, so a reprojection failure or an out-of-range component from the
`lon`/`lat` setters all lead to `delOriginGeo`, with nothing re-raised. -/
def setOriginPrj (reproj : Reprj) (s : Scn) (x y : ℚ) : Scn × Option GeoErr :=
  let s1 : Scn := { s with crsx := some x, crsy := some y }
  match reproj (crsArg s1.crs) (CRSArg.code 4326) x y with
  | none => (delOriginGeo s1, none)
  | some (lonv, latv) =>
    match setLon s1 lonv with
    | (s2, some _) => (delOriginGeo s2, none)
    | (s2, none) =>
      match setLat s2 latv with
      | (s3, some _) => (delOriginGeo s3, none)
      | (s3, none) => (s3, none)

/-- The `crs` property setter (geoscene.py lines 157-174).
`str(SRS(v))` is the external parse/canonicalise step, modelled by
`parseCRS` (`none` = `InvalidCRS` raised).  If `hasOriginGeo`, the
projected origin is recomputed from the geographic one under the new
CRS; elif `hasOriginPrj`, it is re-expressed from the old CRS, which
must itself be valid, else the update is blocked.  Only then is the
`SRID` key written. -/
def setCRS (parseCRS : String → Option String) (validate : String → Bool)
    (reproj : Reprj) (s : Scn) (v : String) : Scn × Option GeoErr :=
  match parseCRS v with
  | none => (s, some GeoErr.invalidCRS)
  | some c =>
    match s.lat, s.lon with
    | some la, some lo =>
      match reproj (CRSArg.code 4326) (CRSArg.text c) lo la with
      | none => (s, some GeoErr.reprojFailure)
      | some (x, y) => ({ s with crsx := some x, crsy := some y, crs := some c }, none)
    | _, _ =>
      match s.crsx, s.crsy with
      | some cx, some cy =>
        if hasValidCRS validate s then
          match reproj (crsArg s.crs) (CRSArg.text c) cx cy with
          | none => (s, some GeoErr.reprojFailure)
          | some (x, y) => ({ s with crsx := some x, crsy := some y, crs := some c }, none)
        else (s, some GeoErr.crsUpdateBlocked)
      | _, _ => ({ s with crs := some c }, none)

/-! ### Claim C1 — `isBroken` characterisation -/

/-- Claim C1: `isBroken` is true iff exactly one of (i) a CRS is stored
but fails validation, (ii) no CRS is stored yet a geographic or
projected origin is stored, (iii) a valid CRS and a geographic origin
are stored but the projected origin is absent; and it is false for the
fully-unset state and for any consistent state (valid CRS with projected
origin). -/
theorem isBroken_exactly_one (validate : String → Bool) (s : Scn) :
    (isBroken validate s = true ↔
      (((hasCRS s = true ∧ hasValidCRS validate s = false)
          ∧ ¬(hasCRS s = false ∧ (hasOriginGeo s = true ∨ hasOriginPrj s = true))
          ∧ ¬(hasValidCRS validate s = true ∧ hasOriginGeo s = true ∧ hasOriginPrj s = false))
        ∨ (¬(hasCRS s = true ∧ hasValidCRS validate s = false)
          ∧ (hasCRS s = false ∧ (hasOriginGeo s = true ∨ hasOriginPrj s = true))
          ∧ ¬(hasValidCRS validate s = true ∧ hasOriginGeo s = true ∧ hasOriginPrj s = false))
        ∨ (¬(hasCRS s = true ∧ hasValidCRS validate s = false)
          ∧ ¬(hasCRS s = false ∧ (hasOriginGeo s = true ∨ hasOriginPrj s = true))
          ∧ (hasValidCRS validate s = true ∧ hasOriginGeo s = true ∧ hasOriginPrj s = false)))) ∧
    (hasCRS s = false → hasOriginGeo s = false → hasOriginPrj s = false →
      isBroken validate s = false) ∧
    (hasValidCRS validate s = true → hasOriginPrj s = true →
      isBroken validate s = false) := by
  have himp : hasValidCRS validate s = true → hasCRS s = true := by
    cases h : s.crs <;> simp [hasValidCRS, hasCRS, h]
  cases h1 : hasCRS s <;> cases h2 : hasValidCRS validate s <;>
    cases h3 : hasOriginGeo s <;> cases h4 : hasOriginPrj s <;>
    simp_all [isBroken]

/-- Concrete instantiation of `isBroken_exactly_one`: a consistent state
(valid CRS plus projected origin) is not broken. -/
theorem isBroken_exactly_one_witness :
    isBroken (fun _ => true)
      { lat := none, lon := none, crsx := some 1, crsy := some 2, crs := some "EPSG:4326" } = false :=
  (isBroken_exactly_one (fun _ => true)
    { lat := none, lon := none, crsx := some 1, crsy := some 2, crs := some "EPSG:4326" }).2.2
    (by decide) (by decide)

/-! ### Claim C2 — CRS setter commit protocol -/

/-- Claim C2: the `crs` setter commits the new CRS string only after the
stored origin is successfully recomputed under it (or there is no origin
to recompute).  (1) any failure leaves the stored state, in particular
the CRS, unchanged; (2) with a geographic origin, the projected origin
is recomputed from it under the new CRS; (3) with only a projected
origin and an invalid or absent previous CRS, the update is blocked and
nothing changes; (4) on success the committed CRS is exactly the parsed
new value. -/
theorem setCRS_commit_protocol (parseCRS : String → Option String)
    (validate : String → Bool) (reproj : Reprj) (s : Scn) (v : String) :
    (∀ e, (setCRS parseCRS validate reproj s v).2 = some e →
       (setCRS parseCRS validate reproj s v).1 = s) ∧
    (∀ c la lo x y, parseCRS v = some c → s.lat = some la → s.lon = some lo →
       reproj (CRSArg.code 4326) (CRSArg.text c) lo la = some (x, y) →
       setCRS parseCRS validate reproj s v =
         ({ s with crsx := some x, crsy := some y, crs := some c }, none)) ∧
    (∀ c, parseCRS v = some c → hasOriginGeo s = false → hasOriginPrj s = true →
       hasValidCRS validate s = false →
       setCRS parseCRS validate reproj s v = (s, some GeoErr.crsUpdateBlocked)) ∧
    (∀ s1, setCRS parseCRS validate reproj s v = (s1, none) →
       ∃ c, parseCRS v = some c ∧ s1.crs = some c) := by
  refine ⟨?_, ?_, ?_, ?_⟩
  · intro e
    simp only [setCRS]
    split
    · intro _; rfl
    · split
      · split
        · intro _; rfl
        · intro h; simp at h
      · split
        · split
          · split
            · intro _; rfl
            · intro h; simp at h
          · intro _; rfl
        · intro h; simp at h
  · intro c la lo x y hc hla hlo hr
    simp [setCRS, hc, hla, hlo, hr]
  · intro c hc hgeo hprj hval
    rcases hcx : s.crsx with _ | cx
    · exact absurd hprj (by simp [hasOriginPrj, hcx])
    rcases hcy : s.crsy with _ | cy
    · exact absurd hprj (by simp [hasOriginPrj, hcx, hcy])
    rcases hla : s.lat with _ | la <;> rcases hlo : s.lon with _ | lo
    · simp [setCRS, hc, hla, hlo, hcx, hcy, hval]
    · simp [setCRS, hc, hla, hlo, hcx, hcy, hval]
    · simp [setCRS, hc, hla, hlo, hcx, hcy, hval]
    · exact absurd hgeo (by simp [hasOriginGeo, hla, hlo])
  · intro s1 h
    simp only [setCRS] at h
    split at h
    · simp at h
    · rename_i c hp
      split at h
      · split at h
        · simp at h
        · injection h with h1 h2
          exact ⟨c, hp, h1 ▸ rfl⟩
      · split at h
        · split at h
          · split at h
            · simp at h
            · injection h with h1 h2
              exact ⟨c, hp, h1 ▸ rfl⟩
          · simp at h
        · injection h with h1 h2
          exact ⟨c, hp, h1 ▸ rfl⟩

/-- Concrete instantiation of `setCRS_commit_protocol`: recomputing a
geographic origin under the new CRS, and blocking the update when only
a projected origin exists under an invalid current CRS. -/
theorem setCRS_commit_protocol_witness :
    setCRS (fun _ => some "EPSG:3857") (fun _ => true)
        (fun _ _ a b => some (a, b))
        { lat := some 10, lon := some 20, crsx := none, crsy := none, crs := some "EPSG:4326" }
        "3857" =
      ({ lat := some 10, lon := some 20, crsx := some 20, crsy := some 10,
         crs := some "EPSG:3857" }, none) ∧
    setCRS (fun _ => some "EPSG:3857") (fun _ => false)
        (fun _ _ a b => some (a, b))
        { lat := none, lon := none, crsx := some 1, crsy := some 2, crs := some "BAD" }
        "3857" =
      ({ lat := none, lon := none, crsx := some 1, crsy := some 2, crs := some "BAD" },
        some GeoErr.crsUpdateBlocked) :=
  ⟨(setCRS_commit_protocol (fun _ => some "EPSG:3857") (fun _ => true)
      (fun _ _ a b => some (a, b))
      { lat := some 10, lon := some 20, crsx := none, crsy := none, crs := some "EPSG:4326" }
      "3857").2.1 "EPSG:3857" 10 20 20 10 rfl rfl rfl rfl,
   (setCRS_commit_protocol (fun _ => some "EPSG:3857") (fun _ => false)
      (fun _ _ a b => some (a, b))
      { lat := none, lon := none, crsx := some 1, crsy := some 2, crs := some "BAD" }
      "3857").2.2.1 "EPSG:3857" rfl (by decide) (by decide) (by decide)⟩

/-! ### Claim C3 — origin repair deletes the dependent field -/

/-- Claim C3: when the reprojection inside `setOriginGeo` fails on an
in-range input, the geographic origin is stored anyway, the projected
origin is deleted and no exception escapes; symmetrically for
`setOriginPrj`. -/
theorem origin_repair_deletes_dependent (reproj : Reprj) (s : Scn) (lon lat x y : ℚ)
    (hlon : -180 ≤ lon ∧ lon ≤ 180) (hlat : -90 ≤ lat ∧ lat ≤ 90) :
    (reproj (CRSArg.code 4326) (crsArg s.crs) lon lat = none →
       setOriginGeo reproj s lon lat =
         ({ s with lon := some lon, lat := some lat, crsx := none, crsy := none }, none)) ∧
    (reproj (crsArg s.crs) (CRSArg.code 4326) x y = none →
       setOriginPrj reproj s x y =
         ({ s with crsx := some x, crsy := some y, lat := none, lon := none }, none)) := by
  constructor
  · intro h
    simp [setOriginGeo, setLon, setLat, hlon.1, hlon.2, hlat.1, hlat.2, h, delOriginPrj]
  · intro h
    simp [setOriginPrj, h, delOriginGeo]

/-- Concrete instantiation of `origin_repair_deletes_dependent` with an
always-failing reprojector. -/
theorem origin_repair_deletes_dependent_witness :
    setOriginGeo (fun _ _ _ _ => none)
        { lat := none, lon := none, crsx := some 7, crsy := some 8, crs := some "EPSG:4326" }
        20 10 =
      ({ lat := some 10, lon := some 20, crsx := none, crsy := none,
         crs := some "EPSG:4326" }, none) ∧
    setOriginPrj (fun _ _ _ _ => none)
        { lat := some 10, lon := some 20, crsx := none, crsy := none, crs := some "EPSG:4326" }
        7 8 =
      ({ lat := none, lon := none, crsx := some 7, crsy := some 8,
         crs := some "EPSG:4326" }, none) :=
  ⟨(origin_repair_deletes_dependent (fun _ _ _ _ => none)
      { lat := none, lon := none, crsx := some 7, crsy := some 8, crs := some "EPSG:4326" }
      20 10 7 8 (by decide) (by decide)).1 rfl,
   (origin_repair_deletes_dependent (fun _ _ _ _ => none)
      { lat := some 10, lon := some 20, crsx := none, crsy := none, crs := some "EPSG:4326" }
      20 10 7 8 (by decide) (by decide)).2 rfl⟩

/-! ### Claim C4 — range errors in setOriginGeo -/

/-- Counterexample to claim C4 as stated: `setOriginGeo(0, 91)` on a
scene whose stored longitude is `5` raises the latitude range error, yet
the stored longitude has been overwritten with `0` — the origin is not
left exactly as it was.  (`self.lon, self.lat = lon, lat` assigns the
longitude before the latitude check fires.) -/
theorem setOriginGeo_partial_write_cex :
    (setOriginGeo (fun _ _ _ _ => none)
        { lat := none, lon := some 5, crsx := some 1, crsy := some 2, crs := none } 0 91).2
      = some GeoErr.latRange ∧
    (setOriginGeo (fun _ _ _ _ => none)
        { lat := none, lon := some 5, crsx := some 1, crsy := some 2, crs := none } 0 91).1.lon
      = some 0 ∧
    some (0 : ℚ) ≠ some (5 : ℚ) := by decide

/-- Claim C4, amended: an out-of-range longitude fails with the
longitude range error and leaves the state entirely unchanged; an
in-range longitude with an out-of-range latitude fails with the latitude
range error and leaves the latitude and projected origin unchanged, but
the longitude field has already been overwritten with the new value. -/
theorem setOriginGeo_range_errors (reproj : Reprj) (s : Scn) (lon lat : ℚ) :
    (¬(-180 ≤ lon ∧ lon ≤ 180) →
       setOriginGeo reproj s lon lat = (s, some GeoErr.lonRange)) ∧
    ((-180 ≤ lon ∧ lon ≤ 180) → ¬(-90 ≤ lat ∧ lat ≤ 90) →
       setOriginGeo reproj s lon lat = ({ s with lon := some lon }, some GeoErr.latRange)) := by
  constructor
  · intro h
    simp [setOriginGeo, setLon, h]
  · intro h1 h2
    simp [setOriginGeo, setLon, setLat, h1.1, h1.2, h2]

/-- Concrete instantiation of `setOriginGeo_range_errors` on both error
paths. -/
theorem setOriginGeo_range_errors_witness :
    setOriginGeo (fun _ _ _ _ => none)
        { lat := none, lon := some 5, crsx := some 1, crsy := some 2, crs := none } 181 10 =
      ({ lat := none, lon := some 5, crsx := some 1, crsy := some 2, crs := none },
        some GeoErr.lonRange) ∧
    setOriginGeo (fun _ _ _ _ => none)
        { lat := none, lon := some 5, crsx := some 1, crsy := some 2, crs := none } 0 91 =
      ({ lat := none, lon := some 0, crsx := some 1, crsy := some 2, crs := none },
        some GeoErr.latRange) :=
  ⟨(setOriginGeo_range_errors (fun _ _ _ _ => none)
      { lat := none, lon := some 5, crsx := some 1, crsy := some 2, crs := none } 181 10).1
      (by decide),
   (setOriginGeo_range_errors (fun _ _ _ _ => none)
      { lat := none, lon := some 5, crsx := some 1, crsy := some 2, crs := none } 0 91).2
      (by decide) (by decide)⟩

/-! ### OSM import (src/osm/op_import_osm.py)

`OSM_IMPORT.build.seed` classifies each feature's point list, builds a
bmesh for it (vertices / independent two-vertex edges / one closed
face), and either links it as its own object (`separate`) or merges it
into shared containers keyed by `type + ':' + filter tag`, recording
vertex-group memberships.  The bmesh is modelled as plain index lists;
the external `Reproj.pts` batch call is a pointwise map parameter. -/

/-- A 2D point as parsed from OSM (`(float(node.lon), float(node.lat))`). -/
abbrev Pt := ℚ × ℚ

/-- A scene-space vertex, `(v[0]-dx, v[1]-dy, 0)` in the source. -/
abbrev Pt3 := ℚ × ℚ × ℚ

/-- The bmesh under construction: vertex coordinates in creation order,
edges and faces as lists of vertex indices. -/
structure BMesh where
  verts : List Pt3
  edges : List (ℕ × ℕ)
  faces : List (List ℕ)
  deriving DecidableEq

/-- `bmesh.new()`. -/
def emptyBM : BMesh := { verts := [], edges := [], faces := [] }

/-- `joinBmesh(src_bm, dest_bm)`: append `src`'s geometry to `dest`;
indices of the appended elements shift by `dest`'s vertex count. -/
def joinBM (src dst : BMesh) : BMesh :=
  let off := dst.verts.length
  { verts := dst.verts ++ src.verts,
    edges := dst.edges ++ src.edges.map (fun e => (e.1 + off, e.2 + off)),
    faces := dst.faces ++ src.faces.map (fun f => f.map (fun i => i + off)) }

/-- `closedWaysArePolygons` (op_import_osm.py line 54), verbatim. -/
def closedWaysArePolygons : List String :=
  ["aeroway", "amenity", "boundary", "building", "craft", "geological",
   "historic", "landuse", "leisure", "military", "natural", "office",
   "place", "shop", "sport", "tourism"]

/-- The three `type` values assigned in `seed`. -/
inductive FeatType
  | nodes
  | ways
  | areas
  deriving DecidableEq

/-- The classification head of `seed` (op_import_osm.py lines 181-191):
more than one point with `pts[0] == pts[-1]` and some tag key in
`closedWaysArePolygons` gives a closed area with the duplicate closing
point popped; any other multi-point list is an open way; one point is a
node.  Returns `(type, closed, pts)`. -/
def classifyPts (pts : List Pt) (tagKeys : List String) : FeatType × Bool × List Pt :=
  if 1 < pts.length then
    if pts.head? = pts.getLast? ∧
        tagKeys.any (fun tag => closedWaysArePolygons.contains tag) = true then
      (FeatType.areas, true, pts.dropLast)
    else (FeatType.ways, false, pts)
  else (FeatType.nodes, false, pts)

/-- One step of the open-way edge loop: `bm.verts.new` twice, then
`bm.edges.new` on the two fresh vertices. -/
def edgeStep (bm : BMesh) (ab : Pt3 × Pt3) : BMesh :=
  { bm with verts := bm.verts ++ [ab.1, ab.2],
            edges := bm.edges ++ [(bm.verts.length, bm.verts.length + 1)] }

/-- Bmesh construction of `seed` (op_import_osm.py lines 198-220): a
single point gives one vertex; a closed list gives all vertices plus one
face over them in order (the subsequent float normal test and possible
in-place `normal_flip` happen inside Blender's bmesh and change only the
face's traversal order, which no claim observes); a longer open list is
split into `lines = [(pts[i], pts[i+1]) for i < n-1]`, each line getting
its own two vertices and an edge. -/
def buildFeatureBM (pts : List Pt3) (closed : Bool) : BMesh :=
  if pts.length = 1 then
    { verts := pts, edges := [], faces := [] }
  else if closed then
    { verts := pts, edges := [], faces := [List.range pts.length] }
  else if 1 < pts.length then
    (pts.zip pts.tail).foldl edgeStep emptyBM
  else emptyBM

/-- The classify-reproject-build prefix of `seed` for one feature:
classification, the external batch reprojector `rp` applied pointwise
(`rprj.pts(pts)`), the shift by the scene origin `(dx, dy) =
(geoscn.crsx, geoscn.crsy)`, then bmesh construction. -/
def seedMesh (rp : Pt → Pt) (dx dy : ℚ) (ptsIn : List Pt) (tagKeys : List String) :
    FeatType × BMesh :=
  let c := classifyPts ptsIn tagKeys
  let pts := (c.2.2.map rp).map (fun w => (w.1 - dx, w.2 - dy, (0 : ℚ)))
  (c.1, buildFeatureBM pts c.2.1)

/-! #### Python dict/string helpers for the grouped branch -/

/-- Lookup in an insertion-ordered dict modelled as an association
list. -/
def alookup {α : Type} : List (String × α) → String → Option α
  | [], _ => none
  | (k1, v) :: t, k => if k1 = k then some v else alookup t k

/-- Store a value under a key: replace in place if present, else append
(the combination of `dict.setdefault` and in-place mutation of the
stored object). -/
def aupdate {α : Type} : List (String × α) → String → α → List (String × α)
  | [], k, v => [(k, v)]
  | (k1, v1) :: t, k, v =>
    if k1 = k then (k, v) :: t else (k1, v1) :: aupdate t k v

/-- `pat` is a prefix of the second list (char-by-char). -/
def isPfx : List Char → List Char → Bool
  | [], _ => true
  | _ :: _, [] => false
  | a :: pa, b :: l => a == b && isPfx pa l

/-- Python `tag.startswith(pat)`. -/
def strStarts (s pat : String) : Bool := isPfx pat.data s.data

/-- Python `pat in s` (substring containment). -/
def containsSub (pat : List Char) : List Char → Bool
  | [] => isPfx pat []
  | c :: rest => isPfx pat (c :: rest) || containsSub pat rest

/-- Python `pat in s` on strings. -/
def strContains (s pat : String) : Bool := containsSub pat.data s.data

/-- Fuel-indexed worker for `strReplace`; the fuel is the input length,
enough for the scan that consumes at least one character per step. -/
def replaceAux (pat rep : List Char) : ℕ → List Char → List Char
  | 0, l => l
  | _ + 1, [] => []
  | fuel + 1, c :: rest =>
    if pat ≠ [] ∧ isPfx pat (c :: rest) = true then
      rep ++ replaceAux pat rep fuel (rest.drop (pat.length - 1))
    else c :: replaceAux pat rep fuel rest

/-- Python `s.replace(pat, rep)` for a non-empty `pat`: left-to-right,
non-overlapping. -/
def strReplace (s pat rep : String) : String :=
  String.mk (replaceAux pat.data rep.data s.data.length s.data)

/-- `tags.get(k)` on a Python dict modelled as a key/value list. -/
def tagsGet (tags : List (String × String)) (k : String) : Option String :=
  (tags.find? (fun kv => kv.1 == k)).map (fun kv => kv.2)

/-- The extended tag list of the build loops:
`list(tags.keys()) + [k + '=' + v for k, v in tags.items()]`. -/
def extendedTags (tags : List (String × String)) : List String :=
  tags.map (fun kv => kv.1) ++ tags.map (fun kv => kv.1 ++ "=" ++ kv.2)

/-! #### Grouped-mode merging (op_import_osm.py lines 248-301) -/

/-- An OSM relation as used by `seed`: its id, its tags (only `name` is
read), and its member refs. -/
structure OsmRel where
  id : ℤ
  tags : List (String × String)
  members : List ℤ
  deriving DecidableEq

/-- The two dicts threaded through `build`: `bmeshes` and
`vgroupsObj`. -/
structure GroupAcc where
  bmeshes : List (String × BMesh)
  vgroupsObj : List (String × List (String × List ℕ))
  deriving DecidableEq

/-- One iteration of `for k in self.filterTags`: on a tag match,
`objName = type + ':' + k`, `kbm = bmeshes.setdefault(objName,
bmesh.new())`, `offset = len(kbm.verts)`, `joinBmesh(bm, kbm)`; the loop
variables `objName`/`offset` keep their last assigned values. -/
def mergeStep (bm : BMesh) (typeName : String) (extags : List String)
    (st : List (String × BMesh) × Option (String × ℕ)) (k : String) :
    List (String × BMesh) × Option (String × ℕ) :=
  if extags.contains k then
    let objName := typeName ++ ":" ++ k
    let kbm := (alookup st.1 objName).getD emptyBM
    (aupdate st.1 objName (joinBM bm kbm), some (objName, kbm.verts.length))
  else st

/-- `vgroup = vgroups.setdefault(gname, []); vgroup.extend(vidx)`. -/
def extendGroup (vg : List (String × List ℕ)) (gname : String) (vidx : List ℕ) :
    List (String × List ℕ) :=
  aupdate vg gname (((alookup vg gname).getD []) ++ vidx)

/-- The vertex-group bookkeeping of the grouped branch (lines 278-301):
`vidx = [v.index + offset for v in bm.verts]` (indices `0..n-1` after
`index_update`), one `Tag:` group per extended tag not starting with
`name`, a `Name:` group when the feature has a `name` tag, and one
`Relation:` group per relation membership when relations are imported;
everything lands in `vgroupsObj[objName]`. -/
def vgroupPhase (extags : List String) (tags : List (String × String))
    (includeRelations : Bool) (relations : List OsmRel) (featId : ℤ)
    (nverts : ℕ) (objName : String) (offset : ℕ)
    (vgObj : List (String × List (String × List ℕ))) :
    List (String × List (String × List ℕ)) :=
  let vidx := (List.range nverts).map (fun i => i + offset)
  let vg0 := (alookup vgObj objName).getD []
  let vg1 := extags.foldl (fun vg tag =>
      if strStarts tag "name" then vg
      else extendGroup vg ("Tag:" ++ tag) vidx) vg0
  let vg2 := match tagsGet tags "name" with
    | some nm => extendGroup vg1 ("Name:" ++ nm) vidx
    | none => vg1
  let vg3 := if includeRelations then
      relations.foldl (fun vg rel =>
        let rname := (tagsGet rel.tags "name").getD (toString rel.id)
        rel.members.foldl (fun vg1 mref =>
          if featId = mref then extendGroup vg1 ("Relation:" ++ rname) vidx
          else vg1) vg) vg2
    else vg2
  aupdate vgObj objName vg3

/-- The grouped (`separate = False`) tail of `seed` for one feature.
With a non-empty tag filter the feature's bmesh is joined into every
matching container; the Python loop variables `objName`/`offset` retain
only the values of the LAST matching tag, and only that container
receives the vertex groups.  With an empty filter everything goes into
the single per-type container.  `none` models the `NameError` Python
would raise if no filter tag matched (callers pre-filter, so a match
always exists). -/
def seedGrouped (filterTags : List String) (extags : List String)
    (tags : List (String × String)) (includeRelations : Bool)
    (relations : List OsmRel) (featId : ℤ) (typeName : String)
    (bm : BMesh) (acc : GroupAcc) : Option GroupAcc :=
  let step :=
    if filterTags.isEmpty then
      let kbm := (alookup acc.bmeshes typeName).getD emptyBM
      (aupdate acc.bmeshes typeName (joinBM bm kbm), some (typeName, kbm.verts.length))
    else
      filterTags.foldl (mergeStep bm typeName extags) (acc.bmeshes, none)
  match step.2 with
  | none => none
  | some (objName, offset) =>
    some { bmeshes := step.1,
           vgroupsObj := vgroupPhase extags tags includeRelations relations featId
             bm.verts.length objName offset acc.vgroupsObj }

/-! #### Build loops and the query operator -/

/-- An OSM node. -/
structure OsmNode where
  id : ℤ
  lon : ℚ
  lat : ℚ
  tags : List (String × String)
  deriving DecidableEq

/-- An OSM way: its ordered node list and tags. -/
structure OsmWay where
  id : ℤ
  nodes : List OsmNode
  tags : List (String × String)
  deriving DecidableEq

/-- `waysNodesId = [node.id for way in result.ways for node in way.nodes]`
(op_import_osm.py line 312). -/
def waysNodesId (ways : List OsmWay) : List ℤ :=
  ways.flatMap (fun way => way.nodes.map (fun node => node.id))

/-- The node loop of `build` (lines 314-328), reduced to which nodes
reach `seed`: nodes are processed only when `'node'` is a selected
feature type; a node referenced by any way is skipped first, then the
tag filter is consulted (`if self.filterTags and not any(tag in
self.filterTags for tag in extags): continue`). -/
def nodeLoopSeeded (featureType : List String) (filterTags : List String)
    (ways : List OsmWay) (nodes : List OsmNode) : List OsmNode :=
  if featureType.contains "node" then
    nodes.filter (fun node =>
      if (waysNodesId ways).contains node.id then false
      else if !filterTags.isEmpty &&
          !((extendedTags node.tags).any (fun tag => filterTags.contains tag)) then false
      else true)
  else []

/-- `queryBuilder` (op_import_osm.py lines 58-97).  The bbox is already
rendered to its `ymin,xmin,ymax,xmax` string (`','.join(map(str,
bbox.toLatlon()))`, the float formatting being external). -/
def queryBuilder (bboxStr : String) (tags : List String) (types : List String)
    (format : String) : String :=
  let types := if types.isEmpty then ["node", "way", "relation"] else types
  let head := "[out:" ++ format ++ "][bbox:" ++ bboxStr ++ "];"
  let u0 := "("
  let u1 := if types.contains "node" then
      u0 ++ (if !tags.isEmpty then
        String.intercalate ";" (tags.map (fun tag => "node[" ++ tag ++ "]")) ++ ";"
      else "node;")
    else u0
  let u2 := if types.contains "way" then
      u1 ++ "((" ++ (if !tags.isEmpty then
        String.intercalate ";" (tags.map (fun tag => "way[" ++ tag ++ "]")) ++ ");"
      else "way);") ++ ">);"
    else u1
  let u3 := if types.contains "relation" || types.contains "rel" then u2 ++ "relation"
    else u2
  head ++ u3 ++ ")" ++ ";out;"

/-- Errors reported by `OSM_QUERY.execute`. -/
inductive QueryFlowErr
  | tooLargeExtent
  | overpassFailed
  deriving DecidableEq

/-- Observable outcome of one `OSM_QUERY.execute` run: the Overpass
queries issued, whether `build` ran, and the reported error if any. -/
structure QueryTrace where
  issued : List String
  builtGeometry : Bool
  err : Option QueryFlowErr
  deriving DecidableEq

/-- `OSM_QUERY.execute` (op_import_osm.py lines 560-586) from the bbox
test onwards.  `dimx`/`dimy` are `bbox.dimensions.x/.y` of
`BBOX.fromTopView(context).toGeo(geoscn)`.  Modelled from the spec:
`BBOX` lives in `utils/geom.py` (outside the core); per the spec the
guard applies to the scene-space extent of the view bbox — `toGeo` only
translates by the scene origin, leaving the dimensions equal to the
scene-space width/height.  `bboxStr` stands for the lat/lon rendering of
`reprojBbox(geoscn.crs, 4326, bbox)` and `fetch` for
`overpy.Overpass().query` (with `none` a raised exception). -/
def osmQueryExecute (dimx dimy : ℚ) (bboxStr : String)
    (filterTags featureType : List String) (fetch : String → Option ℕ) : QueryTrace :=
  if dimx > 20000 ∨ dimy > 20000 then
    { issued := [], builtGeometry := false, err := some QueryFlowErr.tooLargeExtent }
  else
    let q := queryBuilder bboxStr filterTags featureType "xml"
    match fetch q with
    | none => { issued := [q], builtGeometry := false,
                err := some QueryFlowErr.overpassFailed }
    | some _ => { issued := [q], builtGeometry := true, err := none }

/-! ### Claim C5 — classifier decision rule -/

/-- Counterexample to claim C5 as stated: `waterway` is not a member of
`closedWaysArePolygons`, so a closed way carrying only the `waterway`
key classifies as an open line, not a polygon. -/
theorem classify_waterway_cex :
    "waterway" ∉ closedWaysArePolygons ∧
    classifyPts [((0 : ℚ), (0 : ℚ)), (1, 0), (0, 0)] ["waterway"] =
      (FeatType.ways, false, [((0 : ℚ), (0 : ℚ)), (1, 0), (0, 0)]) := by decide

/-- Claim C5, amended: a sequence of at least two points whose first
point equals its last and whose tag keys meet the fixed
closed-ways-are-polygons set (which contains `building`, `landuse` and
`natural`, but not `waterway`) classifies as a polygon with the
duplicate closing point dropped before geometry construction; a
single-point sequence is a point; every other sequence is a line. -/
theorem classify_rules (pts : List Pt) (tags : List String) (rp : Pt → Pt) (dx dy : ℚ) :
    (2 ≤ pts.length → pts.head? = pts.getLast? →
       tags.any (fun tag => closedWaysArePolygons.contains tag) = true →
       classifyPts pts tags = (FeatType.areas, true, pts.dropLast) ∧
       ((seedMesh rp dx dy pts tags).2).verts.length = pts.length - 1) ∧
    (pts.length = 1 → classifyPts pts tags = (FeatType.nodes, false, pts)) ∧
    (2 ≤ pts.length →
       ¬(pts.head? = pts.getLast? ∧
          tags.any (fun tag => closedWaysArePolygons.contains tag) = true) →
       classifyPts pts tags = (FeatType.ways, false, pts)) ∧
    "building" ∈ closedWaysArePolygons ∧ "landuse" ∈ closedWaysArePolygons ∧
    "natural" ∈ closedWaysArePolygons ∧ "waterway" ∉ closedWaysArePolygons := by
  refine ⟨?_, ?_, ?_, by decide, by decide, by decide, by decide⟩
  · intro h2 heq hany
    have hcl : classifyPts pts tags = (FeatType.areas, true, pts.dropLast) := by
      simp only [classifyPts]
      rw [if_pos (by omega), if_pos ⟨heq, hany⟩]
    refine ⟨hcl, ?_⟩
    simp only [seedMesh, hcl, buildFeatureBM]
    split
    · simp
    · simp
  · intro h1
    simp [classifyPts, h1]
  · intro h2 hne
    simp only [classifyPts]
    rw [if_pos (by omega), if_neg hne]

/-- Concrete instantiation of `classify_rules`: the spec's closed
`building` square classifies as a polygon with the closing point
dropped, leaving 4 vertices. -/
theorem classify_rules_witness :
    classifyPts [((0 : ℚ), (0 : ℚ)), (1, 0), (1, 1), (0, 1), (0, 0)] ["building"] =
      (FeatType.areas, true, [((0 : ℚ), (0 : ℚ)), (1, 0), (1, 1), (0, 1)]) ∧
    ((seedMesh (fun p => p) 0 0
        [((0 : ℚ), (0 : ℚ)), (1, 0), (1, 1), (0, 1), (0, 0)] ["building"]).2).verts.length =
      [((0 : ℚ), (0 : ℚ)), (1, 0), (1, 1), (0, 1), (0, 0)].length - 1 :=
  (classify_rules [((0 : ℚ), (0 : ℚ)), (1, 0), (1, 1), (0, 1), (0, 0)] ["building"]
    (fun p => p) 0 0).1 (by decide) (by decide) (by decide)

/-! ### Claim C9 — open ways become independent two-vertex edges -/

/-- Closed form of the edge loop fold: appended vertex pairs and
freshly numbered edges, faces untouched. -/
theorem edge_foldl (l : List (Pt3 × Pt3)) :
    ∀ bm : BMesh,
      (l.foldl edgeStep bm).verts = bm.verts ++ l.flatMap (fun ab => [ab.1, ab.2]) ∧
      (l.foldl edgeStep bm).edges =
        bm.edges ++ (List.range l.length).map
          (fun i => (bm.verts.length + 2 * i, bm.verts.length + 2 * i + 1)) ∧
      (l.foldl edgeStep bm).faces = bm.faces := by
  induction l with
  | nil => intro bm; simp
  | cons ab t ih =>
    intro bm
    have h := ih (edgeStep bm ab)
    simp only [List.foldl_cons]
    refine ⟨?_, ?_, ?_⟩
    · rw [h.1]
      simp [edgeStep]
    · rw [h.2.1]
      have hv : (edgeStep bm ab).verts.length = bm.verts.length + 2 := by
        simp [edgeStep]
      have he : (edgeStep bm ab).edges =
          bm.edges ++ [(bm.verts.length, bm.verts.length + 1)] := rfl
      rw [he, hv, List.append_assoc]
      congr 1
      rw [List.length_cons, List.range_succ_eq_map, List.map_cons, List.map_map,
        List.singleton_append]
      refine List.cons_eq_cons.mpr ⟨by simp, ?_⟩
      apply List.map_congr_left
      intro i _
      simp only [Function.comp_apply, Prod.mk.injEq]
      omega
    · rw [h.2.2]
      simp [edgeStep]

/-- Length of flattened vertex pairs. -/
theorem flatMap_pair_length (l : List (Pt3 × Pt3)) :
    (l.flatMap (fun ab => [ab.1, ab.2])).length = 2 * l.length := by
  induction l with
  | nil => simp
  | cons a t ih =>
    simp only [List.flatMap_cons, List.length_append, List.length_cons,
      List.length_nil, ih]
    omega

/-- Claim C9: an open way of `n ≥ 2` points classified as a line yields
`n-1` independent two-vertex edges — edge `i` is `(2i, 2i+1)` over a
fresh vertex pair per consecutive point pair — with no vertex index
shared between any two edges and no face. -/
theorem line_independent_edges (rp : Pt → Pt) (dx dy : ℚ) (pts : List Pt)
    (tags : List String) (h2 : 2 ≤ pts.length)
    (hline : classifyPts pts tags = (FeatType.ways, false, pts)) :
    ((seedMesh rp dx dy pts tags).2).edges.length = pts.length - 1 ∧
    ((seedMesh rp dx dy pts tags).2).verts.length = 2 * (pts.length - 1) ∧
    ((seedMesh rp dx dy pts tags).2).edges =
      (List.range (pts.length - 1)).map (fun i => (2 * i, 2 * i + 1)) ∧
    ((seedMesh rp dx dy pts tags).2).verts =
      (((pts.map rp).map (fun w => (w.1 - dx, w.2 - dy, (0 : ℚ)))).zip
        ((pts.map rp).map (fun w => (w.1 - dx, w.2 - dy, (0 : ℚ)))).tail).flatMap
        (fun ab => [ab.1, ab.2]) ∧
    ((seedMesh rp dx dy pts tags).2).faces = [] ∧
    (∀ e ∈ ((seedMesh rp dx dy pts tags).2).edges,
     ∀ f ∈ ((seedMesh rp dx dy pts tags).2).edges, e ≠ f →
       e.1 ≠ f.1 ∧ e.1 ≠ f.2 ∧ e.2 ≠ f.1 ∧ e.2 ≠ f.2) := by
  have hbm : (seedMesh rp dx dy pts tags).2 =
      ((((pts.map rp).map (fun w => (w.1 - dx, w.2 - dy, (0 : ℚ)))).zip
        ((pts.map rp).map (fun w => (w.1 - dx, w.2 - dy, (0 : ℚ)))).tail).foldl
        edgeStep emptyBM) := by
    simp only [seedMesh, hline, buildFeatureBM]
    rw [if_neg (by simp; omega), if_neg (by simp), if_pos (by simp; omega)]
  set q := (pts.map rp).map (fun w => (w.1 - dx, w.2 - dy, (0 : ℚ))) with hq
  have hqlen : q.length = pts.length := by simp [hq]
  have hziplen : (q.zip q.tail).length = pts.length - 1 := by
    rw [List.length_zip, List.length_tail, hqlen]
    omega
  have hfold := edge_foldl (q.zip q.tail) emptyBM
  have hedges : ((seedMesh rp dx dy pts tags).2).edges =
      (List.range (pts.length - 1)).map (fun i => (2 * i, 2 * i + 1)) := by
    rw [hbm, hfold.2.1, hziplen]
    simp only [emptyBM, List.length_nil, List.nil_append, Nat.zero_add]
  have hverts : ((seedMesh rp dx dy pts tags).2).verts =
      (q.zip q.tail).flatMap (fun ab => [ab.1, ab.2]) := by
    rw [hbm, hfold.1]
    simp [emptyBM]
  refine ⟨?_, ?_, hedges, hverts, ?_, ?_⟩
  · rw [hedges]
    simp
  · rw [hverts, flatMap_pair_length, hziplen]
  · rw [hbm, hfold.2.2]
    simp [emptyBM]
  · intro e he f hf hne
    rw [hedges] at he hf
    obtain ⟨i, hi, rfl⟩ := List.mem_map.mp he
    obtain ⟨j, hj, rfl⟩ := List.mem_map.mp hf
    have hij : i ≠ j := by
      intro hcon
      exact hne (by rw [hcon])
    refine ⟨?_, ?_, ?_, ?_⟩ <;> simp <;> omega

/-- Concrete instantiation of `line_independent_edges`: an open 4-point
way produces 3 independent edges over 6 vertices. -/
theorem line_independent_edges_witness :
    ((seedMesh (fun p => p) 0 0
        [((0 : ℚ), (0 : ℚ)), (1, 0), (1, 1), (0, 1)] []).2).edges.length =
      [((0 : ℚ), (0 : ℚ)), (1, 0), (1, 1), (0, 1)].length - 1 ∧
    ((seedMesh (fun p => p) 0 0
        [((0 : ℚ), (0 : ℚ)), (1, 0), (1, 1), (0, 1)] []).2).verts.length =
      2 * ([((0 : ℚ), (0 : ℚ)), (1, 0), (1, 1), (0, 1)].length - 1) :=
  ⟨((line_independent_edges (fun p => p) 0 0
      [((0 : ℚ), (0 : ℚ)), (1, 0), (1, 1), (0, 1)] [] (by decide) (by decide))).1,
   ((line_independent_edges (fun p => p) 0 0
      [((0 : ℚ), (0 : ℚ)), (1, 0), (1, 1), (0, 1)] [] (by decide) (by decide))).2.1⟩

/-! ### Claim C7 — way-referenced nodes are excluded -/

/-- Claim C7: a node whose id occurs in any way's node list never
reaches `seed` as a standalone point, whatever the tag filter says; and
when nodes are processed, the kept nodes are exactly those unreferenced
by ways that pass the (possibly empty) tag filter. -/
theorem node_in_way_excluded (featureType filterTags : List String)
    (ways : List OsmWay) (nodes : List OsmNode) :
    (∀ node ∈ nodes, (waysNodesId ways).contains node.id = true →
       node ∉ nodeLoopSeeded featureType filterTags ways nodes) ∧
    (featureType.contains "node" = true →
       ∀ node, node ∈ nodeLoopSeeded featureType filterTags ways nodes ↔
         node ∈ nodes ∧ (waysNodesId ways).contains node.id = false ∧
         (filterTags.isEmpty = true ∨
          (extendedTags node.tags).any (fun tag => filterTags.contains tag) = true)) := by
  constructor
  · intro node hmem hid
    have hid2 : node.id ∈ waysNodesId ways := by simpa using hid
    simp only [nodeLoopSeeded]
    split
    · simp [List.mem_filter, hid2]
    · simp
  · intro hft node
    simp only [nodeLoopSeeded, hft, if_pos rfl, List.mem_filter]
    cases hb1 : (waysNodesId ways).contains node.id <;>
      cases hb2 : filterTags.isEmpty <;>
      cases hb3 : (extendedTags node.tags).any (fun tag => filterTags.contains tag) <;>
      simp_all [List.mem_filter]

/-- Concrete instantiation of `node_in_way_excluded`: a `highway`-tagged
node that is also a vertex of a way is not seeded even though its tags
match the filter. -/
theorem node_in_way_excluded_witness :
    { id := 7, lon := 1, lat := 2, tags := [("highway", "stop")] : OsmNode } ∉
      nodeLoopSeeded ["node"] ["highway"]
        [{ id := 99,
           nodes := [{ id := 7, lon := 1, lat := 2, tags := [("highway", "stop")] },
                     { id := 8, lon := 3, lat := 4, tags := [] }],
           tags := [("highway", "residential")] }]
        [{ id := 7, lon := 1, lat := 2, tags := [("highway", "stop")] }] :=
  (node_in_way_excluded ["node"] ["highway"]
    [{ id := 99,
       nodes := [{ id := 7, lon := 1, lat := 2, tags := [("highway", "stop")] },
                 { id := 8, lon := 3, lat := 4, tags := [] }],
       tags := [("highway", "residential")] }]
    [{ id := 7, lon := 1, lat := 2, tags := [("highway", "stop")] }]).1
    { id := 7, lon := 1, lat := 2, tags := [("highway", "stop")] }
    (by decide) (by decide)

/-! ### Claim C8 — extent guard precedes any fetch -/

/-- Claim C8: when either scene-space dimension of the view bbox
exceeds 20000 units, `OSM_QUERY.execute` reports the too-large-extent
error, issues no Overpass query and builds no geometry. -/
theorem extent_guard_blocks_fetch (dimx dimy : ℚ) (bboxStr : String)
    (filterTags featureType : List String) (fetch : String → Option ℕ)
    (h : dimx > 20000 ∨ dimy > 20000) :
    osmQueryExecute dimx dimy bboxStr filterTags featureType fetch =
      { issued := [], builtGeometry := false,
        err := some QueryFlowErr.tooLargeExtent } := by
  simp [osmQueryExecute, h]

/-- Concrete instantiation of `extent_guard_blocks_fetch`. -/
theorem extent_guard_blocks_fetch_witness :
    osmQueryExecute 20001 5 "0,0,1,1" ["building"] ["way"] (fun _ => some 0) =
      { issued := [], builtGeometry := false,
        err := some QueryFlowErr.tooLargeExtent } :=
  extent_guard_blocks_fetch 20001 5 "0,0,1,1" ["building"] ["way"] (fun _ => some 0)
    (Or.inl (by decide))

/-! ### Claim C10 — the predefined-CRS operator substitutes lon twice -/

/-- Reports issued by `GEOSCENE_SET_CRS.execute`. -/
inductive OpReport
  | noOriginGeo
  | crsFailed
  deriving DecidableEq

/-- The `LON` placeholder literal of `GEOSCENE_SET_CRS.execute`. -/
def lonPlaceholder : String := "\x7bLON\x7d"

/-- The `LAT` placeholder literal of `GEOSCENE_SET_CRS.execute`. -/
def latPlaceholder : String := "\x7bLAT\x7d"

/-- Helper for `setCRS` results: a successful run commits exactly the
parsed canonical CRS string. -/
theorem setCRS_ok_crs (parseCRS : String → Option String) (validate : String → Bool)
    (reproj : Reprj) (s : Scn) (v : String) (s1 : Scn)
    (h : setCRS parseCRS validate reproj s v = (s1, none)) :
    ∃ c, parseCRS v = some c ∧ s1.crs = some c := by
  simp only [setCRS] at h
  split at h
  · simp at h
  · rename_i c hp
    split at h
    · split at h
      · simp at h
      · injection h with h1 h2
        exact ⟨c, hp, h1 ▸ rfl⟩
    · split at h
      · split at h
        · split at h
          · simp at h
          · injection h with h1 h2
            exact ⟨c, hp, h1 ▸ rfl⟩
        · simp at h
      · injection h with h1 h2
        exact ⟨c, hp, h1 ▸ rfl⟩

/-- `GEOSCENE_SET_CRS.execute` (geoscene.py lines 321-344): when the
predefined CRS template contains a placeholder, the operator demands a
geographic origin, substitutes the placeholders, and assigns
`geoscn.crs` inside a `try` whose handler only reports.  Line 335
replaces `LAT` with `str(geoscn.lon)` as the source does.
`toStr` models Python `str` on the stored float. -/
def setCrsOperatorExec (parseCRS : String → Option String) (validate : String → Bool)
    (reproj : Reprj) (toStr : ℚ → String) (s : Scn) (predefCrs : String) :
    Scn × Option OpReport :=
  if strContains predefCrs lonPlaceholder || strContains predefCrs latPlaceholder then
    match s.lat, s.lon with
    | some _, some lonv =>
      match setCRS parseCRS validate reproj s
          (strReplace (strReplace predefCrs lonPlaceholder (toStr lonv))
            latPlaceholder (toStr lonv)) with
      | (s1, none) => (s1, none)
      | (s1, some _) => (s1, some OpReport.crsFailed)
    | _, _ => (s, some OpReport.noOriginGeo)
  else
    match setCRS parseCRS validate reproj s predefCrs with
    | (s1, none) => (s1, none)
    | (s1, some _) => (s1, some OpReport.crsFailed)

/-- Claim C10: on a template containing a placeholder, the operator
reports an error and leaves the state unchanged when no geographic
origin exists; otherwise the committed CRS is the template with the
stored longitude substituted for BOTH the `LON` and the `LAT`
placeholder — the stored latitude value is never substituted. -/
theorem setCrsOperator_lon_substitution (parseCRS : String → Option String)
    (validate : String → Bool) (reproj : Reprj) (toStr : ℚ → String)
    (s : Scn) (predefCrs : String)
    (hph : (strContains predefCrs lonPlaceholder ||
            strContains predefCrs latPlaceholder) = true) :
    (hasOriginGeo s = false →
       setCrsOperatorExec parseCRS validate reproj toStr s predefCrs =
         (s, some OpReport.noOriginGeo)) ∧
    (∀ latv lonv, s.lat = some latv → s.lon = some lonv →
       ∀ s1, setCrsOperatorExec parseCRS validate reproj toStr s predefCrs = (s1, none) →
         ∃ c, parseCRS (strReplace (strReplace predefCrs lonPlaceholder (toStr lonv))
                latPlaceholder (toStr lonv)) = some c ∧ s1.crs = some c) := by
  constructor
  · intro hgeo
    rcases hla : s.lat with _ | la <;> rcases hlo : s.lon with _ | lo
    · simp [setCrsOperatorExec, hph, hla, hlo]
    · simp [setCrsOperatorExec, hph, hla, hlo]
    · simp [setCrsOperatorExec, hph, hla, hlo]
    · exact absurd hgeo (by simp [hasOriginGeo, hla, hlo])
  · intro latv lonv hla hlo s1 h
    simp only [setCrsOperatorExec, hph, if_pos rfl, hla, hlo] at h
    rcases hset : setCRS parseCRS validate reproj s
        (strReplace (strReplace predefCrs lonPlaceholder (toStr lonv))
          latPlaceholder (toStr lonv)) with ⟨s2, e2⟩
    rw [hset] at h
    cases e2 with
    | none =>
      injection h with h1 h2
      exact h1 ▸ setCRS_ok_crs _ _ _ _ _ _ hset
    | some e =>
      simp at h

/-- Concrete instantiation of `setCrsOperator_lon_substitution` on both
branches: without a geographic origin the operator reports and changes
nothing; with one, the committed CRS is the (lon, lon)-substituted
template's parse. -/
theorem setCrsOperator_lon_substitution_witness :
    setCrsOperatorExec (fun _ => some "X") (fun _ => true) (fun _ _ a b => some (a, b))
        (fun _ => "T")
        { lat := none, lon := none, crsx := none, crsy := none, crs := none }
        "+proj=tmerc +lon_0=\x7bLON\x7d +lat_0=\x7bLAT\x7d" =
      ({ lat := none, lon := none, crsx := none, crsy := none, crs := none },
        some OpReport.noOriginGeo) ∧
    ∃ c, (fun _ : String => some "X")
          (strReplace (strReplace "+proj=tmerc +lon_0=\x7bLON\x7d +lat_0=\x7bLAT\x7d"
              lonPlaceholder ((fun _ : ℚ => "T") 2))
            latPlaceholder ((fun _ : ℚ => "T") 2)) = some c ∧
      ({ lat := some 1, lon := some 2, crsx := some 2, crsy := some 1,
         crs := some "X" } : Scn).crs = some c :=
  ⟨(setCrsOperator_lon_substitution (fun _ => some "X") (fun _ => true)
      (fun _ _ a b => some (a, b)) (fun _ => "T")
      { lat := none, lon := none, crsx := none, crsy := none, crs := none }
      "+proj=tmerc +lon_0=\x7bLON\x7d +lat_0=\x7bLAT\x7d" (by decide)).1 (by decide),
   (setCrsOperator_lon_substitution (fun _ => some "X") (fun _ => true)
      (fun _ _ a b => some (a, b)) (fun _ => "T")
      { lat := some 1, lon := some 2, crsx := none, crsy := none, crs := none }
      "+proj=tmerc +lon_0=\x7bLON\x7d +lat_0=\x7bLAT\x7d" (by decide)).2 1 2 rfl rfl
      { lat := some 1, lon := some 2, crsx := some 2, crsy := some 1, crs := some "X" }
      rfl⟩

/-! ### Claim C6 — grouped-mode merging and vertex-group offsets -/

/-- Updating a key makes it retrievable. -/
theorem alookup_aupdate_self {α : Type} (l : List (String × α)) (k : String) (v : α) :
    alookup (aupdate l k v) k = some v := by
  induction l with
  | nil => simp [aupdate, alookup]
  | cons p t ih =>
    obtain ⟨k1, v1⟩ := p
    by_cases h : k1 = k
    · simp [aupdate, alookup, h]
    · simp [aupdate, alookup, h, ih]

/-- Updating one key leaves every other key's binding unchanged. -/
theorem alookup_aupdate_ne {α : Type} (l : List (String × α)) (k k2 : String) (v : α)
    (h : k ≠ k2) : alookup (aupdate l k v) k2 = alookup l k2 := by
  induction l with
  | nil => simp [aupdate, alookup, h]
  | cons p t ih =>
    obtain ⟨k1, v1⟩ := p
    by_cases h1 : k1 = k
    · subst h1
      simp [aupdate, alookup, h]
    · by_cases h2 : k1 = k2
      · simp [aupdate, alookup, h1, h2, Ne.symm h]
      · simp [aupdate, alookup, h1, h2, ih]

/-- Left cancellation for string concatenation. -/
theorem str_append_left_cancel (p a b : String) (h : p ++ a = p ++ b) : a = b := by
  have hd := congrArg String.data h
  simp only [String.data_append] at hd
  exact congrArg String.mk (List.append_cancel_left hd)

/-- Container names `type + ':' + k` are injective in the tag key. -/
theorem containerName_inj (typeName k1 k2 : String)
    (h : typeName ++ ":" ++ k1 = typeName ++ ":" ++ k2) : k1 = k2 :=
  str_append_left_cancel (typeName ++ ":") k1 k2 h

/-- `getLast?` skips a head in front of a non-empty tail. -/
theorem getLast?_cons_of_ne_nil {α : Type} (a : α) (l : List α) (h : l ≠ []) :
    (a :: l).getLast? = l.getLast? := by
  cases l with
  | nil => exact absurd rfl h
  | cons b t => simp [List.getLast?_cons_cons]

/-- A `getLast?` value is a member. -/
theorem mem_of_getLast?_eq {α : Type} :
    ∀ {l : List α} {a : α}, l.getLast? = some a → a ∈ l := by
  intro l
  induction l with
  | nil => intro a h; simp [List.getLast?] at h
  | cons b t ih =>
    intro a h
    cases t with
    | nil =>
      rw [List.getLast?_singleton] at h
      simp at h
      simp [h]
    | cons c tc =>
      rw [List.getLast?_cons_cons] at h
      exact List.mem_cons_of_mem _ (ih h)

/-- Behaviour of the `for k in self.filterTags` merge loop over distinct
filter tags, from any starting dict and loop state: every matching tag's
container receives exactly one join of the feature bmesh at that
container's original vertex count, other keys are untouched, and the
loop variables end as the last matching tag's container name paired with
its pre-join vertex count (or keep their initial values when nothing
matches). -/
theorem mergeLoop_spec (bm : BMesh) (typeName : String) (extags : List String) :
    ∀ fts : List String, fts.Nodup →
    ∀ (st : List (String × BMesh)) (l0 : Option (String × ℕ)),
      (∀ k, k ∈ fts → extags.contains k = true →
        alookup (fts.foldl (mergeStep bm typeName extags) (st, l0)).1
            (typeName ++ ":" ++ k) =
          some (joinBM bm ((alookup st (typeName ++ ":" ++ k)).getD emptyBM))) ∧
      (∀ key, (∀ k, k ∈ fts → extags.contains k = true → typeName ++ ":" ++ k ≠ key) →
        alookup (fts.foldl (mergeStep bm typeName extags) (st, l0)).1 key =
          alookup st key) ∧
      (fts.filter (fun k => extags.contains k) = [] →
        (fts.foldl (mergeStep bm typeName extags) (st, l0)).2 = l0) ∧
      (∀ kl, (fts.filter (fun k => extags.contains k)).getLast? = some kl →
        (fts.foldl (mergeStep bm typeName extags) (st, l0)).2 =
          some (typeName ++ ":" ++ kl,
            ((alookup st (typeName ++ ":" ++ kl)).getD emptyBM).verts.length)) := by
  intro fts
  induction fts with
  | nil =>
    intro _ st l0
    refine ⟨by simp, by simp, by simp, ?_⟩
    intro kl hkl
    simp at hkl
  | cons k0 rest ih =>
    intro hnd st l0
    obtain ⟨hk0, hndr⟩ := List.nodup_cons.mp hnd
    simp only [List.foldl_cons]
    by_cases hc : extags.contains k0 = true
    · have hstep : mergeStep bm typeName extags (st, l0) k0 =
          (aupdate st (typeName ++ ":" ++ k0)
            (joinBM bm ((alookup st (typeName ++ ":" ++ k0)).getD emptyBM)),
           some (typeName ++ ":" ++ k0,
            ((alookup st (typeName ++ ":" ++ k0)).getD emptyBM).verts.length)) := by
        simp only [mergeStep]
        rw [if_pos hc]
      rw [hstep]
      obtain ⟨ih1, ih2, ih3, ih4⟩ := ih hndr
        (aupdate st (typeName ++ ":" ++ k0)
          (joinBM bm ((alookup st (typeName ++ ":" ++ k0)).getD emptyBM)))
        (some (typeName ++ ":" ++ k0,
          ((alookup st (typeName ++ ":" ++ k0)).getD emptyBM).verts.length))
      have hfil : (k0 :: rest).filter (fun k => extags.contains k) =
          k0 :: rest.filter (fun k => extags.contains k) := by
        rw [List.filter_cons, if_pos hc]
      refine ⟨?_, ?_, ?_, ?_⟩
      · intro k hkmem hkc
        rcases List.mem_cons.mp hkmem with rfl | hkr
        · have hne : ∀ k2, k2 ∈ rest → extags.contains k2 = true →
              typeName ++ ":" ++ k2 ≠ typeName ++ ":" ++ k := by
            intro k2 hk2 _ hcon
            exact hk0 (containerName_inj _ _ _ hcon ▸ hk2)
          rw [ih2 _ hne]
          exact alookup_aupdate_self st _ _
        · rw [ih1 k hkr hkc]
          have hne : typeName ++ ":" ++ k0 ≠ typeName ++ ":" ++ k := by
            intro hcon
            exact hk0 (containerName_inj _ _ _ hcon ▸ hkr)
          rw [alookup_aupdate_ne _ _ _ _ hne]
      · intro key hkey
        rw [ih2 key (fun k hk hc2 => hkey k (List.mem_cons_of_mem _ hk) hc2)]
        exact alookup_aupdate_ne _ _ _ _ (hkey k0 (List.mem_cons_self k0 rest) hc)
      · intro hf
        rw [hfil] at hf
        exact absurd hf (by simp)
      · intro kl hkl
        rw [hfil] at hkl
        cases hrf : rest.filter (fun k => extags.contains k) with
        | nil =>
          rw [hrf, List.getLast?_singleton] at hkl
          injection hkl with hkl1
          subst hkl1
          exact ih3 hrf
        | cons b tb =>
          rw [hrf, getLast?_cons_of_ne_nil k0 _ (by simp)] at hkl
          rw [ih4 kl (hrf ▸ hkl)]
          have hklr : kl ∈ rest := List.mem_of_mem_filter (hrf ▸ mem_of_getLast?_eq hkl)
          have hne : typeName ++ ":" ++ k0 ≠ typeName ++ ":" ++ kl := by
            intro hcon
            exact hk0 (containerName_inj _ _ _ hcon ▸ hklr)
          rw [alookup_aupdate_ne _ _ _ _ hne]
    · have hstep : mergeStep bm typeName extags (st, l0) k0 = (st, l0) := by
        simp only [mergeStep]
        rw [if_neg hc]
      rw [hstep]
      obtain ⟨ih1, ih2, ih3, ih4⟩ := ih hndr st l0
      have hfil : (k0 :: rest).filter (fun k => extags.contains k) =
          rest.filter (fun k => extags.contains k) := by
        rw [List.filter_cons, if_neg hc]
      refine ⟨?_, ?_, ?_, ?_⟩
      · intro k hkmem hkc
        rcases List.mem_cons.mp hkmem with rfl | hkr
        · exact absurd hkc hc
        · exact ih1 k hkr hkc
      · intro key hkey
        exact ih2 key (fun k hk hc2 => hkey k (List.mem_cons_of_mem _ hk) hc2)
      · intro hf
        rw [hfil] at hf
        exact ih3 hf
      · intro kl hkl
        rw [hfil] at hkl
        exact ih4 kl hkl

/-- Counterexample to claim C6 as stated: a feature matching both
selected tags `building` and `highway` is merged into both containers
(`Ways:building` exists in the bmesh dict), yet its membership groups
are recorded ONLY under `Ways:highway`, the last matching tag —
`Ways:building` gets no vertex-group entry at all, contradicting
"for each such container ... recorded". -/
theorem seedGrouped_multiTag_cex :
    ((seedGrouped ["building", "highway"] ["building", "highway"] [] false [] 1 "Ways"
        { verts := [((0 : ℚ), (0 : ℚ), (0 : ℚ)), (1, 0, 0)], edges := [(0, 1)], faces := [] }
        { bmeshes := [], vgroupsObj := [] }).map
      (fun g => (alookup g.bmeshes "Ways:building").isSome)) = some true ∧
    ((seedGrouped ["building", "highway"] ["building", "highway"] [] false [] 1 "Ways"
        { verts := [((0 : ℚ), (0 : ℚ), (0 : ℚ)), (1, 0, 0)], edges := [(0, 1)], faces := [] }
        { bmeshes := [], vgroupsObj := [] }).map
      (fun g => alookup g.vgroupsObj "Ways:building")) = some none ∧
    ((seedGrouped ["building", "highway"] ["building", "highway"] [] false [] 1 "Ways"
        { verts := [((0 : ℚ), (0 : ℚ), (0 : ℚ)), (1, 0, 0)], edges := [(0, 1)], faces := [] }
        { bmeshes := [], vgroupsObj := [] }).map
      (fun g => alookup g.vgroupsObj "Ways:highway")) =
      some (some [("Tag:building", [0, 1]), ("Tag:highway", [0, 1])]) := by decide

/-- Claim C6, amended: with an active (duplicate-free) tag filter, a
feature is merged into each matching container, each join using that
container's current vertex count as offset; but its membership-group
vertex indices are recorded only into the container of the LAST matching
tag in filter order, with that container's pre-join vertex count as
offset (offsets thus accumulate across prior merges into that
container); containers of other matching tags receive the geometry but
no membership-group record from this feature. -/
theorem seedGrouped_last_only (filterTags extags : List String)
    (tags : List (String × String)) (includeRelations : Bool)
    (relations : List OsmRel) (featId : ℤ) (typeName : String)
    (bm : BMesh) (acc : GroupAcc)
    (hnd : filterTags.Nodup) (hne : filterTags.isEmpty = false)
    (klast : String)
    (hlast : (filterTags.filter (fun k => extags.contains k)).getLast? = some klast) :
    seedGrouped filterTags extags tags includeRelations relations featId typeName bm acc =
      some { bmeshes :=
               (filterTags.foldl (mergeStep bm typeName extags) (acc.bmeshes, none)).1,
             vgroupsObj :=
               vgroupPhase extags tags includeRelations relations featId
                 bm.verts.length (typeName ++ ":" ++ klast)
                 ((alookup acc.bmeshes (typeName ++ ":" ++ klast)).getD emptyBM).verts.length
                 acc.vgroupsObj } ∧
    (∀ k, k ∈ filterTags → extags.contains k = true →
       alookup (filterTags.foldl (mergeStep bm typeName extags) (acc.bmeshes, none)).1
           (typeName ++ ":" ++ k) =
         some (joinBM bm ((alookup acc.bmeshes (typeName ++ ":" ++ k)).getD emptyBM))) ∧
    (∀ key, key ≠ typeName ++ ":" ++ klast →
       alookup (vgroupPhase extags tags includeRelations relations featId
           bm.verts.length (typeName ++ ":" ++ klast)
           ((alookup acc.bmeshes (typeName ++ ":" ++ klast)).getD emptyBM).verts.length
           acc.vgroupsObj) key =
         alookup acc.vgroupsObj key) := by
  obtain ⟨m1, m2, m3, m4⟩ := mergeLoop_spec bm typeName extags filterTags hnd acc.bmeshes none
  refine ⟨?_, m1, ?_⟩
  · simp only [seedGrouped]
    rw [if_neg (by simp [hne])]
    rw [m4 klast hlast]
  · intro key hkey
    simp only [vgroupPhase]
    exact alookup_aupdate_ne _ _ _ _ (Ne.symm hkey)

/-- Concrete instantiation of `seedGrouped_last_only`: merging a second
`highway` feature into a container already holding two vertices records
its vertex group at offset 2. -/
theorem seedGrouped_last_only_witness :
    seedGrouped ["highway"] ["highway"] [] false [] 0 "Ways"
        { verts := [((0 : ℚ), (0 : ℚ), (0 : ℚ)), (1, 1, 0)], edges := [(0, 1)], faces := [] }
        { bmeshes := [("Ways:highway",
            { verts := [((5 : ℚ), (5 : ℚ), (0 : ℚ)), (6, 6, 0)], edges := [], faces := [] })],
          vgroupsObj := [("Ways:highway", [("Tag:highway", [0, 1])])] } =
      some { bmeshes :=
               (["highway"].foldl
                 (mergeStep
                   { verts := [((0 : ℚ), (0 : ℚ), (0 : ℚ)), (1, 1, 0)],
                     edges := [(0, 1)], faces := [] }
                   "Ways" ["highway"])
                 ([("Ways:highway",
                    { verts := [((5 : ℚ), (5 : ℚ), (0 : ℚ)), (6, 6, 0)],
                      edges := [], faces := [] })], none)).1,
             vgroupsObj :=
               vgroupPhase ["highway"] [] false [] 0 2 ("Ways" ++ ":" ++ "highway") 2
                 [("Ways:highway", [("Tag:highway", [0, 1])])] } :=
  (seedGrouped_last_only ["highway"] ["highway"] [] false [] 0 "Ways"
    { verts := [((0 : ℚ), (0 : ℚ), (0 : ℚ)), (1, 1, 0)], edges := [(0, 1)], faces := [] }
    { bmeshes := [("Ways:highway",
        { verts := [((5 : ℚ), (5 : ℚ), (0 : ℚ)), (6, 6, 0)], edges := [], faces := [] })],
      vgroupsObj := [("Ways:highway", [("Tag:highway", [0, 1])])] }
    (by decide) rfl "highway" (by decide)).1

end BlenderGIS
